import Mathlib

/-!
Verification of the session-scoped conversational core of the Health
Companion backend (src/backend/server.py), together with the weather
advisory and session-listing endpoints.

The embedding is shallow: the MongoDB chats collection becomes a list of
chat documents, each request handler becomes a pure function from the
store (and the external collaborators' responses, passed as function
arguments) to the new store and the HTTP response. Timestamps are
naturals; the AI completion client is a function from the prompt to an
optional reply (none models a raised exception / CompletionUnavailable).
-/

/-- A chat message as stored in a chat document: role (user or assistant),
free-text content, timestamp. Mirrors the Message model and the dicts
built in symptom_check. -/
structure Message where
  role : String
  content : String
  timestamp : Nat
deriving DecidableEq, Repr

/-- A document of the db.chats collection, as created in symptom_check. -/
structure ChatDoc where
  session_id : String
  user_id : String
  messages : List Message
  created_at : Nat
deriving DecidableEq, Repr

/-- The body of the ChatResponse model returned by symptom_check. -/
structure ChatResponse where
  response : String
  symptom : Option String
  possible_causes : List String
  advice : String
  session_id : String
deriving DecidableEq, Repr

/-- One entry of the sessions list built by get_chat_sessions. -/
structure SessionSummary where
  session_id : String
  created_at : Nat
  last_message : String
  message_count : Nat
deriving DecidableEq, Repr

/-- The filter used by every chats query and update:
both session_id and user_id must match. -/
def chat_matches (uid sid : String) (d : ChatDoc) : Bool :=
  d.session_id == sid && d.user_id == uid

/-- db.chats.find_one on the (session_id, user_id) filter:
the first matching document, if any. -/
def findChat (store : List ChatDoc) (uid sid : String) : Option ChatDoc :=
  store.find? (chat_matches uid sid)

/-- db.chats.update_one with a full-document set and upsert=True:
replace the first matching document wholesale, or append the document
when no record matches. Last writer wins; there is no version check. -/
def upsertChat : List ChatDoc → String → String → ChatDoc → List ChatDoc
  | [], _, _, doc => [doc]
  | d :: rest, uid, sid, doc =>
    if chat_matches uid sid d then doc :: rest
    else d :: upsertChat rest uid sid doc

/-- Python truthiness of request.session_id or str(uuid.uuid4()):
a missing or empty session identifier is replaced by a fresh uuid
(passed in here as freshSid). -/
def resolve_session_id (reqSession : Option String) (freshSid : String) : String :=
  match reqSession with
  | some s => if s = "" then freshSid else s
  | none => freshSid

/-- Session resolution inside symptom_check: find the chat document for
(session_id, user_id); when absent, build a fresh in-memory document with
an empty message list (tNow models the datetime.utcnow() call for
created_at). The turn proceeds either way. -/
def resolve_chat_doc (store : List ChatDoc) (uid sid : String) (tNow : Nat) : ChatDoc :=
  match findChat store uid sid with
  | some d => d
  | none => { session_id := sid, user_id := uid, messages := [], created_at := tNow }

/-- The user message dict appended in symptom_check. -/
def user_message (content : String) (t : Nat) : Message :=
  { role := "user", content := content, timestamp := t }

/-- The assistant message dict appended in symptom_check. -/
def assistant_message (content : String) (t : Nat) : Message :=
  { role := "assistant", content := content, timestamp := t }

/-- The fixed system instruction of symptom_check, verbatim. -/
def system_prompt : String :=
  "You are a helpful health assistant that provides general, educational health guidance.\n        \nIMPORTANT GUIDELINES:\n- You do NOT provide medical diagnoses\n- You provide educational information about possible causes of symptoms\n- You always recommend consulting a healthcare professional for proper diagnosis\n- Keep responses concise, friendly, and supportive\n- Focus on general wellness advice\n\nWhen analyzing symptoms, respond with:\n1. Brief acknowledgment of the symptom\n2. 2-3 possible common causes (general education only)\n3. Self-care advice\n4. Always end with a reminder to consult a doctor if symptoms persist or worsen\n\nKeep your response under 150 words."

/-- The bounded context window: the last 6 messages of the sequence
(the Python slice messages[-6:]), concatenated in order as role: content
lines joined by newlines. -/
def conversation_history (msgs : List Message) : String :=
  String.intercalate "\n"
    ((msgs.drop (msgs.length - 6)).map (fun m => m.role ++ ": " ++ m.content))

/-- The full prompt sent to the model: system instruction, then the
windowed conversation. -/
def full_prompt (msgs : List Message) : String :=
  system_prompt ++ "\n\nConversation:\n" ++ conversation_history msgs

/-- The prompt a turn sends to the completion client, as a function of the
store state at read time: the stored messages plus the just-appended user
message, windowed. -/
def turn_prompt (store : List ChatDoc) (uid sid msg : String) (t0 t1 : Nat) : String :=
  full_prompt ((resolve_chat_doc store uid sid t0).messages ++ [user_message msg t1])

/-- Python substring membership (needle in hay) on strings. -/
def pyIn (needle hay : String) : Bool :=
  (List.range (hay.length + 1)).any fun i => needle.data.isPrefixOf (hay.data.drop i)

/-- Python str.lower, character by character. -/
def pyLower (s : String) : String := String.mk (s.data.map Char.toLower)

/-- Python str.capitalize: first character uppercased, the rest lowercased. -/
def pyCapitalize (s : String) : String :=
  match s.data with
  | [] => ""
  | c :: cs => String.mk (c.toUpper :: cs.map Char.toLower)

/-- The fixed symptom keyword vocabulary, in priority order. -/
def symptom_keywords : List String :=
  ["headache", "fever", "cough", "pain", "tired", "nausea", "dizzy"]

/-- Keyword extraction at the end of symptom_check: scan the lowercased
user message for the first keyword (in list order) it contains, and
capitalize it; no match leaves the symptom unset. -/
def extract_symptom (message : String) : Option String :=
  (symptom_keywords.find? (fun keyword => pyIn keyword (pyLower message))).map pyCapitalize

/-- The body of one symptom-check turn between session resolution and
persistence: append the user message in memory, send the windowed context
to the model (gen), and on success append the reply. Returns the document
the turn will persist together with the reply text; none models the
completion call raising (nothing to persist). t0 is the utcnow() for
created_at, t1 for the user message, t2 for the assistant message. -/
def run_turn (store : List ChatDoc) (uid msg sid : String) (t0 t1 t2 : Nat)
    (gen : String → Option String) : Option (ChatDoc × String) :=
  let doc0 := resolve_chat_doc store uid sid t0
  let doc1 := { doc0 with messages := doc0.messages ++ [user_message msg t1] }
  match gen (full_prompt doc1.messages) with
  | none => none
  | some ai_response =>
    some ({ doc1 with messages := doc1.messages ++ [assistant_message ai_response t2] },
      ai_response)

/-- The symptom_check handler: resolve the session identifier, run the
turn, persist the full updated document with an upsert, and build the
response. A failed completion call aborts the request before the single
persistence point, so the store is returned only on success. -/
def symptom_check (store : List ChatDoc) (uid msg : String)
    (reqSession : Option String) (freshSid : String) (t0 t1 t2 : Nat)
    (gen : String → Option String) : Except String (List ChatDoc × ChatResponse) :=
  let sid := resolve_session_id reqSession freshSid
  match run_turn store uid msg sid t0 t1 t2 gen with
  | none => Except.error "Error processing symptom check: CompletionUnavailable"
  | some (doc2, ai_response) =>
    Except.ok (upsertChat store uid sid doc2,
      { response := ai_response
        symptom := extract_symptom msg
        possible_causes := []
        advice := "Remember to stay hydrated and rest. Consult a doctor if symptoms persist."
        session_id := sid })

/-- The state of the chats collection after a symptom-check request:
unchanged when the request failed (the exception propagates before the
update_one call), else the upserted store. -/
def symptom_check_store (store : List ChatDoc) (uid msg : String)
    (reqSession : Option String) (freshSid : String) (t0 t1 t2 : Nat)
    (gen : String → Option String) : List ChatDoc :=
  match symptom_check store uid msg reqSession freshSid t0 t1 t2 gen with
  | Except.ok (store2, _) => store2
  | Except.error _ => store

/-- The get_chat_history handler: the stored message sequence for
(session_id, user_id), or the empty sequence when no record exists. -/
def get_chat_history (store : List ChatDoc) (uid sid : String) : List Message :=
  match findChat store uid sid with
  | some chat => chat.messages
  | none => []

/-- The summary get_chat_sessions builds per chat document: identifier,
creation time, preview of the last message (first 50 characters plus an
ellipsis; the empty string for an empty session), and message count. -/
def session_summary (chat : ChatDoc) : SessionSummary :=
  { session_id := chat.session_id
    created_at := chat.created_at
    last_message :=
      match chat.messages.getLast? with
      | some m => m.content.take 50 ++ "..."
      | none => ""
    message_count := chat.messages.length }

/-- The get_chat_sessions handler: the caller's chat documents, sorted by
created_at descending, limited to 20, each summarized. -/
def get_chat_sessions (store : List ChatDoc) (uid : String) : List SessionSummary :=
  ((((store.filter (fun d => d.user_id == uid)).mergeSort
      (fun a b => decide (b.created_at ≤ a.created_at))).take 20).map session_summary)

/-- The health-alert branch chain of the get_weather handler, verbatim:
first matching branch in the written order wins. Temperatures are modelled
as rationals. -/
def alert_message (temp_c : Rat) (condition : String) : String :=
  if temp_c > 30 then "It's hot today! Stay hydrated and avoid prolonged sun exposure. 💧☀️"
  else if temp_c > 25 then "Pleasant weather! Great day for outdoor activities. 🌤️"
  else if temp_c < 10 then "It's cold! Dress warmly and stay cozy. 🧥❄️"
  else if temp_c < 0 then "Freezing temperatures! Bundle up and limit time outdoors. 🥶"
  else if pyIn "rain" (pyLower condition) then "Rainy weather. Stay dry and be careful if going out. ☔"
  else "Comfortable weather. Perfect for a walk! 🚶‍♂️"

/-- The WeatherResponse model of the get_weather handler. -/
structure WeatherResponse where
  condition : String
  temperature : Rat
  feels_like : Rat
  humidity : Nat
  alert_message : String
  icon : String
deriving DecidableEq, Repr

/-- The get_weather handler applied to the fields the weather provider
returned for the requested city. -/
def get_weather (condition : String) (temp_c feelslike_c : Rat) (humidity : Nat)
    (icon : String) : WeatherResponse :=
  { condition := condition
    temperature := temp_c
    feels_like := feelslike_c
    humidity := humidity
    alert_message := alert_message temp_c condition
    icon := icon }

/-- A sample stored chat document, used by concrete witnesses; its one
message is 56 characters long, so its preview truncates. -/
def sample_chat : ChatDoc :=
  { session_id := "s1", user_id := "u1",
    messages := [user_message "abcdefghij abcdefghij abcdefghij abcdefghij abcdefghij a" 0],
    created_at := 5 }

/-- One turn request of a sequential run: the user message, the completion
client's behaviour for this turn, and the two utcnow() readings. -/
structure TurnIn where
  message : String
  gen : String → Option String
  t1 : Nat
  t2 : Nat

/-- Sequential (non-concurrent) symptom-check turns on one session:
each turn reads the store the previous turn left. -/
def run_turns (uid sid : String) : List ChatDoc → List TurnIn → List ChatDoc
  | store, [] => store
  | store, i :: is =>
    run_turns uid sid (symptom_check_store store uid i.message (some sid) "" i.t1 i.t1 i.t2 i.gen) is

/-- The message sequence N successful turns are expected to leave behind:
for each turn, its user message then the assistant reply, in turn order. -/
def build_history : List TurnIn → List String → List Message
  | i :: is, r :: rs =>
    user_message i.message i.t1 :: assistant_message r i.t2 :: build_history is rs
  | _, _ => []

/-- The expected role sequence of n turns: user, assistant, repeated. -/
def role_pattern : Nat → List String
  | 0 => []
  | n + 1 => "user" :: "assistant" :: role_pattern n

/-- The racy interleaving of two concurrent turns on the same session:
both turns read the same initial store (both suspend at the completion
call before either write lands), then each writes its full document,
turn 1 first, turn 2 second. -/
def race_final_store (store : List ChatDoc) (uid sid msg1 msg2 : String)
    (t1 t2 t3 t4 : Nat) (gen1 gen2 : String → Option String) : List ChatDoc :=
  match run_turn store uid msg1 sid t1 t1 t2 gen1, run_turn store uid msg2 sid t3 t3 t4 gen2 with
  | some (d1, _), some (d2, _) => upsertChat (upsertChat store uid sid d1) uid sid d2
  | some (d1, _), none => upsertChat store uid sid d1
  | none, some (d2, _) => upsertChat store uid sid d2
  | none, none => store

lemma chat_matches_iff_eq (uid sid : String) (d : ChatDoc) :
    chat_matches uid sid d = true ↔ d.session_id = sid ∧ d.user_id = uid := by
  simp [chat_matches]

lemma findChat_some {store : List ChatDoc} {uid sid : String} {d : ChatDoc}
    (h : findChat store uid sid = some d) : d.session_id = sid ∧ d.user_id = uid :=
  (chat_matches_iff_eq uid sid d).mp (List.find?_some h)

lemma findChat_upsertChat_self (store : List ChatDoc) (uid sid : String) (doc : ChatDoc)
    (h1 : doc.session_id = sid) (h2 : doc.user_id = uid) :
    findChat (upsertChat store uid sid doc) uid sid = some doc := by
  have hdoc : chat_matches uid sid doc = true := by simp [chat_matches, h1, h2]
  induction store with
  | nil => simp [upsertChat, findChat, List.find?, hdoc]
  | cons d rest ih =>
    by_cases h : chat_matches uid sid d
    · simp [upsertChat, h, findChat, List.find?, hdoc]
    · simpa [upsertChat, h, findChat, List.find?] using ih

lemma get_chat_history_upsertChat_self (store : List ChatDoc) (uid sid : String)
    (doc : ChatDoc) (h1 : doc.session_id = sid) (h2 : doc.user_id = uid) :
    get_chat_history (upsertChat store uid sid doc) uid sid = doc.messages := by
  unfold get_chat_history
  rw [findChat_upsertChat_self store uid sid doc h1 h2]

lemma resolve_chat_doc_session_id (store : List ChatDoc) (uid sid : String) (t : Nat) :
    (resolve_chat_doc store uid sid t).session_id = sid := by
  unfold resolve_chat_doc
  cases h : findChat store uid sid with
  | none => rfl
  | some d => exact (findChat_some h).1

lemma resolve_chat_doc_user_id (store : List ChatDoc) (uid sid : String) (t : Nat) :
    (resolve_chat_doc store uid sid t).user_id = uid := by
  unfold resolve_chat_doc
  cases h : findChat store uid sid with
  | none => rfl
  | some d => exact (findChat_some h).2

lemma resolve_chat_doc_messages (store : List ChatDoc) (uid sid : String) (t : Nat) :
    (resolve_chat_doc store uid sid t).messages = get_chat_history store uid sid := by
  unfold resolve_chat_doc get_chat_history
  cases findChat store uid sid <;> rfl

lemma resolve_session_id_some {sid : String} (fresh : String) (hsid : sid ≠ "") :
    resolve_session_id (some sid) fresh = sid := by
  simp [resolve_session_id, hsid]

lemma run_turn_eq_some {store : List ChatDoc} {uid sid msg : String} {t0 t1 t2 : Nat}
    {gen : String → Option String} {r : String}
    (h : gen (turn_prompt store uid sid msg t0 t1) = some r) :
    run_turn store uid msg sid t0 t1 t2 gen =
      some ({ resolve_chat_doc store uid sid t0 with
                messages := (resolve_chat_doc store uid sid t0).messages ++
                  [user_message msg t1, assistant_message r t2] }, r) := by
  unfold turn_prompt at h
  simp [run_turn, h]

lemma run_turn_eq_none {store : List ChatDoc} {uid sid msg : String} {t0 t1 t2 : Nat}
    {gen : String → Option String}
    (h : gen (turn_prompt store uid sid msg t0 t1) = none) :
    run_turn store uid msg sid t0 t1 t2 gen = none := by
  unfold turn_prompt at h
  simp [run_turn, h]

lemma symptom_check_store_ok {store : List ChatDoc} {uid sid msg fresh : String}
    {t0 t1 t2 : Nat} {gen : String → Option String} {r : String} (hsid : sid ≠ "")
    (hgen : gen (turn_prompt store uid sid msg t0 t1) = some r) :
    get_chat_history (symptom_check_store store uid msg (some sid) fresh t0 t1 t2 gen) uid sid
      = get_chat_history store uid sid ++ [user_message msg t1, assistant_message r t2] := by
  unfold symptom_check_store symptom_check
  rw [resolve_session_id_some fresh hsid]
  simp only [run_turn_eq_some hgen]
  rw [get_chat_history_upsertChat_self] <;>
    simp [resolve_chat_doc_messages, resolve_chat_doc_session_id, resolve_chat_doc_user_id]

lemma symptom_check_error_of_fail {store : List ChatDoc} {uid msg fresh : String}
    {reqSession : Option String} {t0 t1 t2 : Nat} {gen : String → Option String}
    (hfail : gen (turn_prompt store uid (resolve_session_id reqSession fresh) msg t0 t1) = none) :
    symptom_check store uid msg reqSession fresh t0 t1 t2 gen =
      Except.error "Error processing symptom check: CompletionUnavailable" := by
  unfold symptom_check
  simp only [run_turn_eq_none hfail]

lemma symptom_check_store_of_fail {store : List ChatDoc} {uid msg fresh : String}
    {reqSession : Option String} {t0 t1 t2 : Nat} {gen : String → Option String}
    (hfail : gen (turn_prompt store uid (resolve_session_id reqSession fresh) msg t0 t1) = none) :
    symptom_check_store store uid msg reqSession fresh t0 t1 t2 gen = store := by
  unfold symptom_check_store
  rw [symptom_check_error_of_fail hfail]

/-- Claim C7: for every weather result, the advisory string is chosen by the
first matching branch, tested in the fixed order temp above 30, above 25,
below 10, below 0, condition contains rain (case-insensitively), else the
default; in particular a temperature of 32 always yields the above-30 branch
text, and the response carries exactly this advisory. -/
theorem c7_weather_alert_branch_order :
    (∀ condition : String, alert_message 32 condition =
      "It's hot today! Stay hydrated and avoid prolonged sun exposure. 💧☀️") ∧
    (∀ (t : Rat) (c : String), 30 < t → alert_message t c =
      "It's hot today! Stay hydrated and avoid prolonged sun exposure. 💧☀️") ∧
    (∀ (t : Rat) (c : String), t ≤ 30 → 25 < t → alert_message t c =
      "Pleasant weather! Great day for outdoor activities. 🌤️") ∧
    (∀ (t : Rat) (c : String), t ≤ 25 → t < 10 → alert_message t c =
      "It's cold! Dress warmly and stay cozy. 🧥❄️") ∧
    (∀ (t : Rat) (c : String), t ≤ 25 → ¬ t < 10 → pyIn "rain" (pyLower c) = true →
      alert_message t c = "Rainy weather. Stay dry and be careful if going out. ☔") ∧
    (∀ (t : Rat) (c : String), t ≤ 25 → ¬ t < 10 → pyIn "rain" (pyLower c) = false →
      alert_message t c = "Comfortable weather. Perfect for a walk! 🚶‍♂️") ∧
    (∀ (c : String) (t f : Rat) (h : Nat) (i : String),
      (get_weather c t f h i).alert_message = alert_message t c) := by
  refine ⟨?_, ?_, ?_, ?_, ?_, ?_, ?_⟩
  · intro c
    unfold alert_message
    rw [if_pos (by norm_num : (32 : Rat) > 30)]
  · intro t c ht
    unfold alert_message
    rw [if_pos ht]
  · intro t c h30 h25
    unfold alert_message
    rw [if_neg (by exact not_lt.mpr h30), if_pos h25]
  · intro t c h25 h10
    unfold alert_message
    rw [if_neg (by exact not_lt.mpr (h25.trans (by norm_num))), if_neg (by exact not_lt.mpr h25),
      if_pos h10]
  · intro t c h25 h10 hrain
    unfold alert_message
    rw [if_neg (by exact not_lt.mpr (h25.trans (by norm_num))), if_neg (by exact not_lt.mpr h25),
      if_neg h10, if_neg (by push_neg at h10 ⊢; linarith), if_pos (by exact hrain)]
  · intro t c h25 h10 hrain
    unfold alert_message
    rw [if_neg (by exact not_lt.mpr (h25.trans (by norm_num))), if_neg (by exact not_lt.mpr h25),
      if_neg h10, if_neg (by push_neg at h10 ⊢; linarith), if_neg (by simp [hrain])]
  · intro c t f h i
    rfl

/-- Witness for claim C7 at concrete inputs: 32 degrees with a sunny
condition hits the hot branch, 28 the pleasant branch, 15 with rain the
rain branch. -/
theorem c7_weather_alert_branch_order_witness :
    alert_message 32 "Sunny" =
      "It's hot today! Stay hydrated and avoid prolonged sun exposure. 💧☀️" ∧
    alert_message 28 "Sunny" = "Pleasant weather! Great day for outdoor activities. 🌤️" ∧
    alert_message 15 "Light Rain" = "Rainy weather. Stay dry and be careful if going out. ☔" :=
  ⟨c7_weather_alert_branch_order.1 "Sunny",
   c7_weather_alert_branch_order.2.2.1 28 "Sunny" (by norm_num) (by norm_num),
   c7_weather_alert_branch_order.2.2.2.2.1 15 "Light Rain" (by norm_num) (by norm_num)
     (by decide)⟩

/-- Claim C10: for every temperature strictly below 0, the advisory is the
below-10 cold-weather message, and for no input at all is the freezing
message returned: the below-0 branch is unreachable because the below-10
test precedes it. -/
theorem c10_freezing_branch_unreachable :
    (∀ (t : Rat) (c : String), t < 0 → alert_message t c =
      "It's cold! Dress warmly and stay cozy. 🧥❄️") ∧
    (∀ (t : Rat) (c : String), alert_message t c ≠
      "Freezing temperatures! Bundle up and limit time outdoors. 🥶") := by
  constructor
  · intro t c ht
    unfold alert_message
    rw [if_neg (by linarith), if_neg (by linarith), if_pos (by linarith)]
  · intro t c
    unfold alert_message
    split_ifs <;> first | decide | (exfalso; linarith)

/-- Witness for claim C10 at minus 5 degrees: the cold message is returned
and it is not the freezing message. -/
theorem c10_freezing_branch_unreachable_witness :
    alert_message (-5) "Snow" = "It's cold! Dress warmly and stay cozy. 🧥❄️" ∧
    alert_message (-5) "Snow" ≠ "Freezing temperatures! Bundle up and limit time outdoors. 🥶" :=
  ⟨c10_freezing_branch_unreachable.1 (-5) "Snow" (by norm_num),
   c10_freezing_branch_unreachable.2 (-5) "Snow"⟩

/-- Counterexample to claim C1: the store holds no record for the supplied
session identifier s1, yet the request completes the turn and returns ok
with that identifier, instead of failing with NotFound. -/
theorem c1_counterexample :
    findChat [] "u1" "s1" = none ∧
    symptom_check [] "u1" "I have a headache" (some "s1") "fresh-uuid" 0 0 1
        (fun _ => some "reply") =
      Except.ok
        ([{ session_id := "s1", user_id := "u1",
              messages := [user_message "I have a headache" 0, assistant_message "reply" 1],
              created_at := 0 }],
         { response := "reply", symptom := some "Headache", possible_causes := [],
           advice := "Remember to stay hydrated and rest. Consult a doctor if symptoms persist.",
           session_id := "s1" }) := by
  constructor
  · rfl
  · rfl

/-- Claim C1 (amended): when an authenticated symptom-check request supplies
a session identifier for which no (user_id, session_id) record exists, the
turn proceeds against a fresh empty message sequence under the supplied
identifier and the record is created at persistence time; session
resolution does not fail. -/
theorem c1_supplied_absent_session_proceeds (store : List ChatDoc)
    (uid sid msg fresh : String) (t0 t1 t2 : Nat) (gen : String → Option String) (r : String)
    (hsid : sid ≠ "") (habs : findChat store uid sid = none)
    (hgen : gen (turn_prompt store uid sid msg t0 t1) = some r) :
    (∃ store2 resp, symptom_check store uid msg (some sid) fresh t0 t1 t2 gen =
        Except.ok (store2, resp) ∧ resp.session_id = sid) ∧
    get_chat_history (symptom_check_store store uid msg (some sid) fresh t0 t1 t2 gen) uid sid
      = [user_message msg t1, assistant_message r t2] := by
  have h0 : get_chat_history store uid sid = [] := by
    unfold get_chat_history
    rw [habs]
  constructor
  · have heq : symptom_check store uid msg (some sid) fresh t0 t1 t2 gen =
        Except.ok (upsertChat store uid sid
            { resolve_chat_doc store uid sid t0 with
              messages := (resolve_chat_doc store uid sid t0).messages ++
                [user_message msg t1, assistant_message r t2] },
          { response := r, symptom := extract_symptom msg, possible_causes := [],
            advice := "Remember to stay hydrated and rest. Consult a doctor if symptoms persist.",
            session_id := sid }) := by
      unfold symptom_check
      rw [resolve_session_id_some fresh hsid]
      simp only [run_turn_eq_some hgen]
    exact ⟨_, _, heq, rfl⟩
  · rw [symptom_check_store_ok hsid hgen, h0]
    rfl

/-- Witness for claim C1 as amended, at a concrete absent identifier. -/
theorem c1_supplied_absent_session_proceeds_witness :
    (∃ store2 resp, symptom_check [] "u1" "hello" (some "s1") "f" 0 0 1
        (fun _ => some "ok") = Except.ok (store2, resp) ∧ resp.session_id = "s1") ∧
    get_chat_history (symptom_check_store [] "u1" "hello" (some "s1") "f" 0 0 1
        (fun _ => some "ok")) "u1" "s1"
      = [user_message "hello" 0, assistant_message "ok" 1] :=
  c1_supplied_absent_session_proceeds [] "u1" "s1" "hello" "f" 0 0 1 (fun _ => some "ok") "ok"
    (by decide) rfl rfl

/-- Claim C2: a symptom-check turn whose completion call fails persists
nothing: the request errors out, the chats store is exactly what it was
before the turn, and so is every stored message sequence — the user message
appended in memory during the turn is not saved. -/
theorem c2_failed_completion_persists_nothing (store : List ChatDoc) (uid msg : String)
    (reqSession : Option String) (fresh : String) (t0 t1 t2 : Nat)
    (gen : String → Option String)
    (hfail : gen (turn_prompt store uid (resolve_session_id reqSession fresh) msg t0 t1) = none) :
    symptom_check store uid msg reqSession fresh t0 t1 t2 gen =
      Except.error "Error processing symptom check: CompletionUnavailable" ∧
    symptom_check_store store uid msg reqSession fresh t0 t1 t2 gen = store ∧
    ∀ sid2 : String,
      get_chat_history (symptom_check_store store uid msg reqSession fresh t0 t1 t2 gen) uid sid2
        = get_chat_history store uid sid2 := by
  refine ⟨symptom_check_error_of_fail hfail, symptom_check_store_of_fail hfail, ?_⟩
  intro sid2
  rw [symptom_check_store_of_fail hfail]

/-- Witness for claim C2: a concrete turn on a one-session store whose
completion client always fails leaves the store untouched. -/
theorem c2_failed_completion_persists_nothing_witness :
    symptom_check [{ session_id := "s1", user_id := "u1",
                     messages := [user_message "hi" 0, assistant_message "yo" 1],
                     created_at := 0 }]
        "u1" "again" (some "s1") "f" 2 2 3 (fun _ => none) =
      Except.error "Error processing symptom check: CompletionUnavailable" ∧
    symptom_check_store [{ session_id := "s1", user_id := "u1",
                           messages := [user_message "hi" 0, assistant_message "yo" 1],
                           created_at := 0 }]
        "u1" "again" (some "s1") "f" 2 2 3 (fun _ => none) =
      [{ session_id := "s1", user_id := "u1",
         messages := [user_message "hi" 0, assistant_message "yo" 1], created_at := 0 }] ∧
    ∀ sid2 : String,
      get_chat_history (symptom_check_store [{ session_id := "s1", user_id := "u1",
                                               messages := [user_message "hi" 0,
                                                 assistant_message "yo" 1],
                                               created_at := 0 }]
          "u1" "again" (some "s1") "f" 2 2 3 (fun _ => none)) "u1" sid2
        = get_chat_history [{ session_id := "s1", user_id := "u1",
                              messages := [user_message "hi" 0, assistant_message "yo" 1],
                              created_at := 0 }]
            "u1" sid2 :=
  c2_failed_completion_persists_nothing _ "u1" "again" (some "s1") "f" 2 2 3 (fun _ => none) rfl

/-- Claim C3: a turn sends the completion client exactly one prompt, built
from at most the last 6 messages of the in-memory sequence (the stored
history plus the just-appended user message), concatenated in order as
role: content lines; hence two clients that agree on that one prompt make
the turn behave identically. -/
theorem c3_context_window_bounded (store : List ChatDoc) (uid sid msg fresh : String)
    (t0 t1 t2 : Nat) (g1 g2 : String → Option String) (hsid : sid ≠ "")
    (hagree : g1 (turn_prompt store uid sid msg t0 t1) =
      g2 (turn_prompt store uid sid msg t0 t1)) :
    symptom_check store uid msg (some sid) fresh t0 t1 t2 g1 =
      symptom_check store uid msg (some sid) fresh t0 t1 t2 g2 ∧
    ∃ w : List Message,
      w.length ≤ 6 ∧
      w <:+ (get_chat_history store uid sid ++ [user_message msg t1]) ∧
      ((get_chat_history store uid sid ++ [user_message msg t1]).length ≤ 6 →
        w = get_chat_history store uid sid ++ [user_message msg t1]) ∧
      turn_prompt store uid sid msg t0 t1 =
        system_prompt ++ "\n\nConversation:\n" ++
          String.intercalate "\n" (w.map (fun m => m.role ++ ": " ++ m.content)) := by
  constructor
  · unfold symptom_check run_turn
    rw [resolve_session_id_some fresh hsid]
    unfold turn_prompt at hagree
    simp only [hagree]
  · refine ⟨(get_chat_history store uid sid ++ [user_message msg t1]).drop
      ((get_chat_history store uid sid ++ [user_message msg t1]).length - 6), ?_, ?_, ?_, ?_⟩
    · rw [List.length_drop]
      omega
    · exact List.drop_suffix _ _
    · intro h
      rw [Nat.sub_eq_zero_of_le h, List.drop_zero]
    · unfold turn_prompt full_prompt conversation_history
      rw [resolve_chat_doc_messages]

/-- Witness for claim C3 on a session already holding 8 messages: the
window drops the earliest 3 of the 9 in-memory messages. -/
theorem c3_context_window_bounded_witness :
    symptom_check [{ session_id := "s1", user_id := "u1",
                     messages := [user_message "m1" 1, assistant_message "r1" 2,
                       user_message "m2" 3, assistant_message "r2" 4,
                       user_message "m3" 5, assistant_message "r3" 6,
                       user_message "m4" 7, assistant_message "r4" 8],
                     created_at := 0 }] "u1" "m5" (some "s1") "f" 9 9 10 (fun _ => some "ok") =
      symptom_check [{ session_id := "s1", user_id := "u1",
                       messages := [user_message "m1" 1, assistant_message "r1" 2,
                         user_message "m2" 3, assistant_message "r2" 4,
                         user_message "m3" 5, assistant_message "r3" 6,
                         user_message "m4" 7, assistant_message "r4" 8],
                       created_at := 0 }] "u1" "m5" (some "s1") "f" 9 9 10
        (fun _ => some "ok") ∧
    ∃ w : List Message,
      w.length ≤ 6 ∧
      w <:+ (get_chat_history [{ session_id := "s1", user_id := "u1",
                                 messages := [user_message "m1" 1, assistant_message "r1" 2,
                                   user_message "m2" 3, assistant_message "r2" 4,
                                   user_message "m3" 5, assistant_message "r3" 6,
                                   user_message "m4" 7, assistant_message "r4" 8],
                                 created_at := 0 }] "u1" "s1" ++ [user_message "m5" 9]) ∧
      ((get_chat_history [{ session_id := "s1", user_id := "u1",
                            messages := [user_message "m1" 1, assistant_message "r1" 2,
                              user_message "m2" 3, assistant_message "r2" 4,
                              user_message "m3" 5, assistant_message "r3" 6,
                              user_message "m4" 7, assistant_message "r4" 8],
                            created_at := 0 }] "u1" "s1" ++ [user_message "m5" 9]).length ≤ 6 →
        w = get_chat_history [{ session_id := "s1", user_id := "u1",
                                messages := [user_message "m1" 1, assistant_message "r1" 2,
                                  user_message "m2" 3, assistant_message "r2" 4,
                                  user_message "m3" 5, assistant_message "r3" 6,
                                  user_message "m4" 7, assistant_message "r4" 8],
                                created_at := 0 }] "u1" "s1" ++ [user_message "m5" 9]) ∧
      turn_prompt [{ session_id := "s1", user_id := "u1",
                     messages := [user_message "m1" 1, assistant_message "r1" 2,
                       user_message "m2" 3, assistant_message "r2" 4,
                       user_message "m3" 5, assistant_message "r3" 6,
                       user_message "m4" 7, assistant_message "r4" 8],
                     created_at := 0 }] "u1" "s1" "m5" 9 9 =
        system_prompt ++ "\n\nConversation:\n" ++
          String.intercalate "\n" (w.map (fun m => m.role ++ ": " ++ m.content)) :=
  c3_context_window_bounded _ "u1" "s1" "m5" "f" 9 9 10 (fun _ => some "ok")
    (fun _ => some "ok") (by decide) rfl

/-- Counterexample to claim C4 as frozen: a message containing both fever
and pain, but also the earlier keyword headache, yields Headache, not
Fever. -/
theorem c4_counterexample :
    pyIn "fever" (pyLower "headache fever pain") = true ∧
    pyIn "pain" (pyLower "headache fever pain") = true ∧
    extract_symptom "headache fever pain" = some "Headache" ∧
    extract_symptom "headache fever pain" ≠ some "Fever" :=
  ⟨by decide, by decide, by decide, by decide⟩

/-- Claim C4 (amended): topic extraction is deterministic and priority
ordered over the fixed keyword list, scanned case-insensitively on the
lowercased message: a message containing fever and pain and not the
earlier keyword headache yields Fever; a message containing fever never
yields Pain; a message containing no keyword leaves the topic unset. -/
theorem c4_topic_extraction_priority (message : String) :
    (pyIn "fever" (pyLower message) = true → pyIn "pain" (pyLower message) = true →
      pyIn "headache" (pyLower message) = false → extract_symptom message = some "Fever") ∧
    (pyIn "fever" (pyLower message) = true → extract_symptom message ≠ some "Pain") ∧
    ((∀ k ∈ symptom_keywords, pyIn k (pyLower message) = false) →
      extract_symptom message = none) := by
  refine ⟨?_, ?_, ?_⟩
  · intro hf hp hh
    simp [extract_symptom, symptom_keywords, List.find?, hf, hh]
    decide
  · intro hf
    cases hh : pyIn "headache" (pyLower message) with
    | true =>
      simp [extract_symptom, symptom_keywords, List.find?, hh]
      decide
    | false =>
      simp [extract_symptom, symptom_keywords, List.find?, hf, hh]
      decide
  · intro hall
    have h1 := hall "headache" (by decide)
    have h2 := hall "fever" (by decide)
    have h3 := hall "cough" (by decide)
    have h4 := hall "pain" (by decide)
    have h5 := hall "tired" (by decide)
    have h6 := hall "nausea" (by decide)
    have h7 := hall "dizzy" (by decide)
    simp [extract_symptom, symptom_keywords, List.find?, h1, h2, h3, h4, h5, h6, h7]

/-- Witness for claim C4 as amended at concrete messages. -/
theorem c4_topic_extraction_priority_witness :
    extract_symptom "I have a FEVER and some pain" = some "Fever" ∧
    extract_symptom "I have a FEVER and some pain" ≠ some "Pain" ∧
    extract_symptom "hello there" = none :=
  ⟨(c4_topic_extraction_priority "I have a FEVER and some pain").1 (by decide) (by decide)
      (by decide),
   (c4_topic_extraction_priority "I have a FEVER and some pain").2.1 (by decide),
   (c4_topic_extraction_priority "hello there").2.2 (by decide)⟩

lemma build_history_length : ∀ (inputs : List TurnIn) (replies : List String),
    replies.length = inputs.length →
    (build_history inputs replies).length = 2 * inputs.length
  | [], [], _ => rfl
  | i :: is, r :: rs, h => by
    have := build_history_length is rs (by simpa using h)
    simp [build_history, this]
    ring
  | [], _ :: _, h => by simp at h
  | _ :: _, [], h => by simp at h

lemma build_history_roles : ∀ (inputs : List TurnIn) (replies : List String),
    replies.length = inputs.length →
    (build_history inputs replies).map Message.role = role_pattern inputs.length
  | [], [], _ => rfl
  | i :: is, r :: rs, h => by
    have := build_history_roles is rs (by simpa using h)
    simp [build_history, role_pattern, user_message, assistant_message, this]
  | [], _ :: _, h => by simp at h
  | _ :: _, [], h => by simp at h

lemma run_turns_history (uid sid : String) (hsid : sid ≠ "") :
    ∀ (inputs : List TurnIn) (store : List ChatDoc),
      (∀ i ∈ inputs, ∀ p, i.gen p ≠ none) →
      ∃ replies : List String, replies.length = inputs.length ∧
        get_chat_history (run_turns uid sid store inputs) uid sid
          = get_chat_history store uid sid ++ build_history inputs replies := by
  intro inputs
  induction inputs with
  | nil =>
    intro store _
    exact ⟨[], rfl, by simp [run_turns, build_history]⟩
  | cons i is ih =>
    intro store hsucc
    obtain ⟨r, hr⟩ : ∃ r, i.gen (turn_prompt store uid sid i.message i.t1 i.t1) = some r := by
      cases h : i.gen (turn_prompt store uid sid i.message i.t1 i.t1) with
      | none => exact absurd h (hsucc i (by simp) _)
      | some r => exact ⟨r, rfl⟩
    obtain ⟨rs, hlen, hhist⟩ :=
      ih (symptom_check_store store uid i.message (some sid) "" i.t1 i.t1 i.t2 i.gen)
        (fun j hj p => hsucc j (by simp [hj]) p)
    refine ⟨r :: rs, by simp [hlen], ?_⟩
    have hstep : run_turns uid sid store (i :: is) =
        run_turns uid sid
          (symptom_check_store store uid i.message (some sid) "" i.t1 i.t1 i.t2 i.gen) is := rfl
    rw [hstep, hhist, symptom_check_store_ok hsid hr]
    simp [build_history, List.append_assoc]

/-- Claim C5: starting from a session with no stored messages, N successful
sequential symptom-check turns leave a history of exactly 2N messages, in
append order turn by turn (each turn contributing its user message then the
assistant reply), so the roles alternate user, assistant throughout. -/
theorem c5_sequential_turns_history (store : List ChatDoc) (uid sid : String)
    (inputs : List TurnIn) (hsid : sid ≠ "")
    (hfresh : get_chat_history store uid sid = [])
    (hsucc : ∀ i ∈ inputs, ∀ p, i.gen p ≠ none) :
    ∃ replies : List String, replies.length = inputs.length ∧
      get_chat_history (run_turns uid sid store inputs) uid sid = build_history inputs replies ∧
      (get_chat_history (run_turns uid sid store inputs) uid sid).length = 2 * inputs.length ∧
      (get_chat_history (run_turns uid sid store inputs) uid sid).map Message.role
        = role_pattern inputs.length := by
  obtain ⟨replies, hlen, hhist⟩ := run_turns_history uid sid hsid inputs store hsucc
  rw [hfresh, List.nil_append] at hhist
  exact ⟨replies, hlen, hhist, by rw [hhist]; exact build_history_length inputs replies hlen,
    by rw [hhist]; exact build_history_roles inputs replies hlen⟩

/-- Witness for claim C5: two successful turns on a fresh session leave 4
messages with roles user, assistant, user, assistant. -/
theorem c5_sequential_turns_history_witness :
    ∃ replies : List String,
      replies.length = ([{ message := "hi", gen := fun _ => some "a1", t1 := 0, t2 := 1 },
        { message := "more", gen := fun _ => some "a2", t1 := 2, t2 := 3 }] : List TurnIn).length ∧
      get_chat_history (run_turns "u1" "s1" []
          [{ message := "hi", gen := fun _ => some "a1", t1 := 0, t2 := 1 },
           { message := "more", gen := fun _ => some "a2", t1 := 2, t2 := 3 }]) "u1" "s1"
        = build_history
            [{ message := "hi", gen := fun _ => some "a1", t1 := 0, t2 := 1 },
             { message := "more", gen := fun _ => some "a2", t1 := 2, t2 := 3 }] replies ∧
      (get_chat_history (run_turns "u1" "s1" []
          [{ message := "hi", gen := fun _ => some "a1", t1 := 0, t2 := 1 },
           { message := "more", gen := fun _ => some "a2", t1 := 2, t2 := 3 }]) "u1" "s1").length
        = 2 * ([{ message := "hi", gen := fun _ => some "a1", t1 := 0, t2 := 1 },
            { message := "more", gen := fun _ => some "a2", t1 := 2, t2 := 3 }] : List TurnIn).length ∧
      (get_chat_history (run_turns "u1" "s1" []
          [{ message := "hi", gen := fun _ => some "a1", t1 := 0, t2 := 1 },
           { message := "more", gen := fun _ => some "a2", t1 := 2, t2 := 3 }]) "u1" "s1").map
          Message.role
        = role_pattern ([{ message := "hi", gen := fun _ => some "a1", t1 := 0, t2 := 1 },
            { message := "more", gen := fun _ => some "a2", t1 := 2, t2 := 3 }] : List TurnIn).length :=
  c5_sequential_turns_history [] "u1" "s1"
    [{ message := "hi", gen := fun _ => some "a1", t1 := 0, t2 := 1 },
     { message := "more", gen := fun _ => some "a2", t1 := 2, t2 := 3 }]
    (by decide) rfl
    (by
      intro i hi p
      rcases List.mem_cons.mp hi with rfl | hi2
      · simp
      · rcases List.mem_cons.mp hi2 with rfl | h
        · simp
        · cases h)

/-- Claim C6: two concurrent turns on the same session both read the same
stored sequence, append independently, and write full documents
last-writer-wins; in the read-read-write-write interleaving the final
history holds only the second turn's messages, so the first turn's user
message is silently lost. No version check prevents the overwrite. -/
theorem c6_concurrent_turns_lose_messages (store : List ChatDoc) (uid sid msg1 msg2 : String)
    (t1 t2 t3 t4 : Nat) (gen1 gen2 : String → Option String) (r1 r2 : String)
    (hfresh : findChat store uid sid = none)
    (h1 : gen1 (turn_prompt store uid sid msg1 t1 t1) = some r1)
    (h2 : gen2 (turn_prompt store uid sid msg2 t3 t3) = some r2) :
    get_chat_history (race_final_store store uid sid msg1 msg2 t1 t2 t3 t4 gen1 gen2) uid sid
      = [user_message msg2 t3, assistant_message r2 t4] ∧
    (msg1 ≠ msg2 → msg1 ≠ r2 →
      ∀ m ∈ get_chat_history (race_final_store store uid sid msg1 msg2 t1 t2 t3 t4 gen1 gen2)
          uid sid, m.content ≠ msg1) := by
  have hmain : get_chat_history (race_final_store store uid sid msg1 msg2 t1 t2 t3 t4 gen1 gen2)
      uid sid = [user_message msg2 t3, assistant_message r2 t4] := by
    unfold race_final_store
    rw [run_turn_eq_some h1, run_turn_eq_some h2]
    rw [get_chat_history_upsertChat_self] <;>
      simp [resolve_chat_doc_session_id, resolve_chat_doc_user_id, resolve_chat_doc_messages,
        get_chat_history, hfresh]
  refine ⟨hmain, ?_⟩
  intro hne1 hne2 m hm
  rw [hmain] at hm
  simp [user_message, assistant_message] at hm
  rcases hm with rfl | rfl
  · simpa [user_message] using fun h => hne1 h.symm
  · simpa [assistant_message] using fun h => hne2 h.symm

/-- Witness for claim C6: a concrete interleaving of two turns on a fresh
session; the final history holds only the second turn's pair, and no
stored message carries the first turn's text. -/
theorem c6_concurrent_turns_lose_messages_witness :
    get_chat_history (race_final_store [] "u1" "s1" "first" "second" 0 1 2 3
        (fun _ => some "ra") (fun _ => some "rb")) "u1" "s1"
      = [user_message "second" 2, assistant_message "rb" 3] ∧
    ("first" ≠ "second" → "first" ≠ "rb" →
      ∀ m ∈ get_chat_history (race_final_store [] "u1" "s1" "first" "second" 0 1 2 3
          (fun _ => some "ra") (fun _ => some "rb")) "u1" "s1", m.content ≠ "first") :=
  c6_concurrent_turns_lose_messages [] "u1" "s1" "first" "second" 0 1 2 3
    (fun _ => some "ra") (fun _ => some "rb") "ra" "rb" rfl rfl rfl

/-- Claim C8: listing chat sessions never returns more than 20 entries, and
the entries are ordered by session creation time descending. -/
theorem c8_list_sessions_bounded_and_sorted (store : List ChatDoc) (uid : String) :
    (get_chat_sessions store uid).length ≤ 20 ∧
    List.Pairwise (fun a b : SessionSummary => b.created_at ≤ a.created_at)
      (get_chat_sessions store uid) := by
  constructor
  · unfold get_chat_sessions
    rw [List.length_map]
    exact List.length_take_le 20 _
  · unfold get_chat_sessions
    rw [List.pairwise_map]
    have hsorted : List.Pairwise
        (fun a b : ChatDoc => decide (b.created_at ≤ a.created_at) = true)
        ((store.filter (fun d => d.user_id == uid)).mergeSort
          (fun a b => decide (b.created_at ≤ a.created_at))) :=
      List.sorted_mergeSort
        (fun a b c hab hbc => by
          simp only [decide_eq_true_iff] at *
          omega)
        (fun a b => by
          simp only [Bool.or_eq_true, decide_eq_true_iff]
          exact Nat.le_total b.created_at a.created_at)
        (store.filter (fun d => d.user_id == uid))
    have htake := List.Pairwise.sublist (List.take_sublist 20 _) hsorted
    exact htake.imp (fun h => by
      simpa [session_summary] using of_decide_eq_true h)

/-- Claim C9: every listed session summary reports the message count of its
stored chat document and previews the last message as its content truncated
to 50 characters plus an ellipsis, or the empty string when the session has
no messages. -/
theorem c9_session_summary_preview (store : List ChatDoc) (uid : String)
    (s : SessionSummary) (hs : s ∈ get_chat_sessions store uid) :
    ∃ chat : ChatDoc, chat ∈ store ∧ chat.user_id = uid ∧
      s.session_id = chat.session_id ∧ s.created_at = chat.created_at ∧
      s.message_count = chat.messages.length ∧
      (chat.messages = [] → s.last_message = "") ∧
      (∀ m : Message, chat.messages.getLast? = some m →
        s.last_message = m.content.take 50 ++ "...") := by
  unfold get_chat_sessions at hs
  rw [List.mem_map] at hs
  obtain ⟨chat, hchat, rfl⟩ := hs
  have hmem : chat ∈ store.filter (fun d => d.user_id == uid) :=
    List.mem_mergeSort.mp ((List.take_sublist 20 _).subset hchat)
  have huser : chat.user_id = uid := by simpa using List.of_mem_filter hmem
  refine ⟨chat, List.mem_of_mem_filter hmem, huser, rfl, rfl, rfl, ?_, ?_⟩
  · intro hnil
    simp [session_summary, hnil]
  · intro m hm
    simp [session_summary, hm]

/-- Witness for claim C9 on a one-session store whose last message is 56
characters long: the preview is its first 50 characters plus an ellipsis. -/
theorem c9_session_summary_preview_witness :
    ∃ chat : ChatDoc,
      chat ∈ [sample_chat] ∧
      chat.user_id = "u1" ∧
      (session_summary sample_chat).session_id = chat.session_id ∧
      (session_summary sample_chat).created_at = chat.created_at ∧
      (session_summary sample_chat).message_count = chat.messages.length ∧
      (chat.messages = [] → (session_summary sample_chat).last_message = "") ∧
      (∀ m : Message, chat.messages.getLast? = some m →
        (session_summary sample_chat).last_message = m.content.take 50 ++ "...") :=
  c9_session_summary_preview [sample_chat] "u1" (session_summary sample_chat)
    (by simp [get_chat_sessions, sample_chat, List.mergeSort_singleton])
